import Mathlib

/-!
Verification of the booking screen implemented in
src/app/components/Service/ProviderList.tsx.

The component delegates all persistence to an external backend service.
In this shallow embedding the backend is a record of response functions,
and every handler of the component is embedded as a pure function from
its inputs and the backend responses to the list of effects it issues
(queries, inserts, updates, alerts, error logs) together with the state
it stores.  Line numbers in the doc comments refer to the source file.
-/

namespace ProviderList

/-- Nested user relation row: only the display name is projected
(select fragment `users ( name )`, line 143). -/
structure NestedUser where
  name : Option String
  deriving DecidableEq, Repr

/-- Nested service relation row: title plus the owning user
(select fragment lines 141 to 144). -/
structure NestedService where
  title : Option String
  users : Option NestedUser
  deriving DecidableEq, Repr

/-- Raw booking row as returned by the backend query, with the nested
service and user relations possibly null at any level
(type BookingWithDetailsServiceAndUser, lines 197 to 202). -/
structure RawBooking where
  id : String
  booking_date : String
  special_requests : Option String
  status : String
  services : Option NestedService
  deriving DecidableEq, Repr

/-- Flat view model produced by the formatter (BookingRequest shape built
at lines 207 to 216). -/
structure BookingRequest where
  id : String
  booking_date : String
  time : String
  special_requests : String
  status : String
  serviceTitle : String
  practitionerName : String
  deriving DecidableEq, Repr

/-- Formatter body (the map callback, lines 206 to 216).  The runtime
date parser and the two locale formatters are abstracted as the two
functions fmtDate and fmtTime applied to the stored date string; the
optional-chaining fallbacks are translated with Option.bind / Option.getD. -/
def formatBooking (fmtDate fmtTime : String → String) (req : RawBooking) :
    BookingRequest :=
  { id := req.id
    booking_date := fmtDate req.booking_date
    time := fmtTime req.booking_date
    special_requests := req.special_requests.getD ""
    status := req.status
    serviceTitle := (req.services.bind fun s => s.title).getD "Unknown Service"
    practitionerName :=
      ((req.services.bind fun s => s.users).bind fun u => u.name).getD
        "Unknown Practitioner" }

/-- The formattedRequests map over the fetched rows (line 205). -/
def formatRequests (fmtDate fmtTime : String → String)
    (rows : List RawBooking) : List BookingRequest :=
  rows.map (formatBooking fmtDate fmtTime)

/-- Role flag used to scope the bookings query (line 42 declares the
placeholder; lines 149 to 178 branch on it, including the fallthrough
branch for an undetermined role). -/
inductive Role where
  | client
  | practitioner
  | unknown
  deriving DecidableEq, Repr

/-- The bookings query the component builds, as data: table, the nested
select of service title and provider name, ordering, row limit, and the
two possible filters (equality on client_id, set membership on
service_id). -/
structure BookingsQuery where
  table : String
  selectNestedServiceAndUser : Bool
  orderField : String
  orderAscending : Bool
  limitCount : Nat
  clientIdEq : Option String
  serviceIdIn : Option (List String)
  deriving DecidableEq, Repr

/-- The query before role scoping (lines 137 to 147): select with nested
relations, order by updated_at descending, limit 3, no filter yet. -/
def baseBookingsQuery : BookingsQuery :=
  { table := "bookings"
    selectNestedServiceAndUser := true
    orderField := "updated_at"
    orderAscending := false
    limitCount := 3
    clientIdEq := none
    serviceIdIn := none }

/-- Observable effects of the fetch pipeline: the owned-services
sub-query (lines 153 to 156), the main bookings query (line 181), and
the error and warning logs. -/
inductive FetchEffect where
  | serviceIdsQuery (userId : String)
  | bookingsQuery (q : BookingsQuery)
  | logError (msg : String)
  | logWarn (msg : String)
  deriving DecidableEq, Repr

/-- Backend responses consumed by the fetch pipeline: the list of
identifiers of services owned by a user, and the rows answering a
bookings query.  Failures are modelled with Except. -/
structure FetchBackend where
  practitionerServices : String → Except Unit (List String)
  runBookings : BookingsQuery → Except Unit (List RawBooking)

/-- Execution of the constructed query and handling of its outcome
(lines 181 to 220): on error log and store the empty list, on success
store the formatted rows. -/
def runBookingsQuery (backend : FetchBackend) (fmtDate fmtTime : String → String)
    (q : BookingsQuery) : List FetchEffect × List BookingRequest :=
  match backend.runBookings q with
  | .error _ =>
      ([.bookingsQuery q, .logError "Error fetching booking requests:"], [])
  | .ok rows => ([.bookingsQuery q], formatRequests fmtDate fmtTime rows)

/-- fetchBookingRequests (lines 129 to 221).  Returns the effects issued
and the list stored into the bookingRequests state.  A missing user
identifier short-circuits to the empty list with no query (lines 130 to
134); the client branch adds the client_id equality filter (line 150);
the practitioner branch first fetches owned service identifiers and
short-circuits on sub-fetch failure or an empty set (lines 151 to 172);
an undetermined role warns and stores the empty list (lines 173 to 178). -/
def fetchBookingRequests (backend : FetchBackend)
    (fmtDate fmtTime : String → String) (userRole : Role)
    (currentUserId : Option String) : List FetchEffect × List BookingRequest :=
  match currentUserId with
  | none => ([], [])
  | some uid =>
    match userRole with
    | .client =>
        runBookingsQuery backend fmtDate fmtTime
          { baseBookingsQuery with clientIdEq := some uid }
    | .practitioner =>
        match backend.practitionerServices uid with
        | .error _ =>
            ([.serviceIdsQuery uid,
              .logError "Error fetching practitioner services:"], [])
        | .ok serviceIds =>
            if 0 < serviceIds.length then
              let res := runBookingsQuery backend fmtDate fmtTime
                { baseBookingsQuery with serviceIdIn := some serviceIds }
              (.serviceIdsQuery uid :: res.1, res.2)
            else
              ([.serviceIdsQuery uid], [])
    | .unknown =>
        ([.logWarn "User role not determined, cannot fetch specific bookings."],
         [])

/-- Data coming from the inline request form (interface BookingFormData,
lines 22 to 26). -/
structure BookingFormData where
  booking_date : String
  special_requests : String
  deriving DecidableEq, Repr

/-- Row inserted into the bookings table (bookingDataToInsert, lines 49
to 55). -/
structure BookingInsert where
  service_id : String
  client_id : String
  booking_date : String
  special_requests : String
  status : String
  deriving DecidableEq, Repr

/-- Observable effects of the three mutation handlers: the blocking
alert, the insert, the parent callback, the single-row status update,
and the error logs. -/
inductive MutationEffect where
  | alert (title msg : String)
  | insertBooking (row : BookingInsert)
  | onBookingMade
  | updateBooking (table : String) (newStatus : String) (idEq : String)
  | logError (msg : String)
  deriving DecidableEq, Repr

/-- Backend responses consumed by the mutation handlers. -/
structure MutationBackend where
  insertBooking : BookingInsert → Except Unit Unit
  updateStatus : String → String → Except Unit Unit

/-- handleBookingRequest (lines 44 to 79).  Inputs: the clientId state,
the selectedServiceId state, whether the optional onBookingMade callback
was supplied, the form data and the service identifier.  Returns the
effects issued and the new selectedServiceId state.  With no known user
the handler alerts and returns before any write (lines 45 to 48); with a
known user it inserts the pending row, on failure logs, on success
invokes the callback when present, and in either outcome clears the
selected service (line 78). -/
def handleBookingRequest (backend : MutationBackend) (clientId : Option String)
    (selectedServiceId : Option String) (hasOnBookingMade : Bool)
    (request : BookingFormData) (serviceId : String) :
    List MutationEffect × Option String :=
  match clientId with
  | none =>
      ([.alert "Error" "You must be logged in to make a booking request."],
       selectedServiceId)
  | some cid =>
      let row : BookingInsert :=
        { service_id := serviceId
          client_id := cid
          booking_date := request.booking_date
          special_requests := request.special_requests
          status := "pending" }
      match backend.insertBooking row with
      | .error _ =>
          ([.insertBooking row, .logError "Error storing booking request:"],
           none)
      | .ok _ =>
          (.insertBooking row ::
            (if hasOnBookingMade then [MutationEffect.onBookingMade] else []),
           none)

/-- handleRespond (lines 81 to 103).  Issues the single-row status update
filtered by identifier; on failure logs and leaves the list unchanged;
on success patches the matching entries of the local list in place
(lines 95 to 99). -/
def handleRespond (backend : MutationBackend) (id status : String)
    (reqs : List BookingRequest) : List MutationEffect × List BookingRequest :=
  match backend.updateStatus id status with
  | .error _ =>
      ([.updateBooking "bookings" status id,
        .logError "Error updating booking status:"], reqs)
  | .ok _ =>
      ([.updateBooking "bookings" status id],
       reqs.map fun req =>
         if req.id = id then { req with status := status } else req)

/-- handleCancel (lines 106 to 127).  Same shape as handleRespond with
the target status fixed to cancelled; the local patch is written out
separately in the source (lines 120 to 124) and is therefore written out
separately here as well. -/
def handleCancel (backend : MutationBackend) (id : String)
    (reqs : List BookingRequest) : List MutationEffect × List BookingRequest :=
  match backend.updateStatus id "cancelled" with
  | .error _ =>
      ([.updateBooking "bookings" "cancelled" id,
        .logError "Error cancelling booking:"], reqs)
  | .ok _ =>
      ([.updateBooking "bookings" "cancelled" id],
       reqs.map fun req =>
         if req.id = id then { req with status := "cancelled" } else req)

/-- Erases the text of error logs, keeping every behaviourally relevant
part of a mutation effect; used to compare the cancel and respond
handlers, whose log wordings differ. -/
def eraseLogText : MutationEffect → MutationEffect
  | .logError _ => .logError ""
  | e => e

/-- Component state relevant to the claims: the clientId state (line 40),
the bookingRequests state (line 39) and the selectedServiceId state
(line 38). -/
structure ComponentState where
  clientId : Option String
  bookingRequests : List BookingRequest
  selectedServiceId : Option String
  deriving DecidableEq, Repr

/-- Initial state: every useState starts at null or empty (lines 38 to
40). -/
def initialState : ComponentState :=
  { clientId := none, bookingRequests := [], selectedServiceId := none }

/-- The identifier the realtime callback reads.  The mount effect (lines
224 to 291) has an empty dependency array, so it runs exactly once, in
the first render, where the clientId state variable still holds its
initial value; the callback installed at lines 274 to 279 closes over
that render binding of clientId, so the identifier it passes to
fetchBookingRequests is frozen at the mount-time value and never
observes later setClientId updates. -/
def subscriptionClientId : Option String :=
  initialState.clientId

/-- The realtime subscription callback (lines 274 to 279): on every
change event it re-runs fetchBookingRequests with the captured clientId
binding. -/
def onBookingsChangeEvent (backend : FetchBackend)
    (fmtDate fmtTime : String → String) (userRole : Role) :
    List FetchEffect × List BookingRequest :=
  fetchBookingRequests backend fmtDate fmtTime userRole subscriptionClientId

/-- fetchCurrentUser (lines 226 to 241): session retrieval failure leaves
the state unchanged apart from the alert; no session clears the booking
list; an active session stores the user identifier and runs the booking
fetch with it. -/
def fetchCurrentUser (backend : FetchBackend)
    (fmtDate fmtTime : String → String) (userRole : Role)
    (session : Except Unit (Option String)) (s : ComponentState) :
    ComponentState :=
  match session with
  | .error _ => s
  | .ok none => { s with bookingRequests := [] }
  | .ok (some uid) =>
      { s with
        clientId := some uid
        bookingRequests :=
          (fetchBookingRequests backend fmtDate fmtTime userRole
            (some uid)).2 }

/-- Concrete booking row used to exercise the pipeline on real data. -/
def demoBooking : RawBooking :=
  { id := "b1"
    booking_date := "2024-06-01T10:00"
    special_requests := some "first visit"
    status := "pending"
    services := some { title := some "Massage", users := some { name := some "Alice" } } }

/-- Concrete backend holding one booking row for every query and no
owned services. -/
def demoBackend : FetchBackend :=
  { practitionerServices := fun _ => .ok []
    runBookings := fun _ => .ok [demoBooking] }

/-- Concrete backend whose main bookings query always fails while the
owned-services sub-fetch succeeds with one service. -/
def failingMainQueryBackend : FetchBackend :=
  { practitionerServices := fun _ => .ok ["s1"]
    runBookings := fun _ => .error () }

/-- Concrete mutation backend for which every write succeeds. -/
def okBackend : MutationBackend :=
  { insertBooking := fun _ => .ok ()
    updateStatus := fun _ _ => .ok () }

/-- Concrete view-model entry with identifier b1. -/
def reqA : BookingRequest :=
  { id := "b1", booking_date := "d1", time := "t1", special_requests := ""
    status := "pending", serviceTitle := "S1", practitionerName := "P1" }

/-- Concrete view-model entry with identifier b2. -/
def reqB : BookingRequest :=
  { id := "b2", booking_date := "d2", time := "t2", special_requests := "x"
    status := "pending", serviceTitle := "S2", practitionerName := "P2" }

/-- Concrete raw booking row with every optional relation missing. -/
def sampleRawBooking : RawBooking :=
  { id := "b0", booking_date := "2024-01-01", special_requests := none
    status := "pending", services := none }

/-- Helper: whatever the backend answers, the first effect of executing a
bookings query is that query itself. -/
theorem runBookingsQuery_head (backend : FetchBackend)
    (fmtDate fmtTime : String → String) (q : BookingsQuery) :
    (runBookingsQuery backend fmtDate fmtTime q).1.head? =
      some (FetchEffect.bookingsQuery q) := by
  unfold runBookingsQuery
  cases backend.runBookings q <;> rfl

/-- Helper: executing a bookings query never issues an owned-services
sub-query. -/
theorem runBookingsQuery_no_serviceIds (backend : FetchBackend)
    (fmtDate fmtTime : String → String) (q : BookingsQuery) :
    ∀ u, FetchEffect.serviceIdsQuery u ∉
      (runBookingsQuery backend fmtDate fmtTime q).1 := by
  unfold runBookingsQuery
  cases backend.runBookings q <;> simp

/-- Helper: mapping a function that fixes every element of a list leaves
the list unchanged. -/
theorem map_fixes_of_forall {α : Type} (f : α → α) (l : List α)
    (h : ∀ x ∈ l, f x = x) : l.map f = l := by
  induction l with
  | nil => rfl
  | cons a t ih =>
      simp only [List.map_cons, h a (by simp), List.cons.injEq, true_and]
      exact ih fun x hx => h x (by simp [hx])

/-- C2: when no user identifier is known, the create-booking handler
issues exactly the blocking alert, performs no insert on the bookings
table, and leaves the selected service unchanged. -/
theorem handleBookingRequest_no_user_alerts (backend : MutationBackend)
    (selectedServiceId : Option String) (hasOnBookingMade : Bool)
    (request : BookingFormData) (serviceId : String) :
    handleBookingRequest backend none selectedServiceId hasOnBookingMade
        request serviceId =
      ([.alert "Error" "You must be logged in to make a booking request."],
       selectedServiceId) ∧
    ∀ row, MutationEffect.insertBooking row ∉
      (handleBookingRequest backend none selectedServiceId hasOnBookingMade
        request serviceId).1 := by
  refine ⟨rfl, ?_⟩
  intro row h
  simp [handleBookingRequest] at h

/-- C9: with a known user identifier, the create-booking handler clears
the selected-service state (closing the inline form) whether the insert
succeeded or failed. -/
theorem handleBookingRequest_clears_selected (backend : MutationBackend)
    (cid : String) (selectedServiceId : Option String)
    (hasOnBookingMade : Bool) (request : BookingFormData)
    (serviceId : String) :
    (handleBookingRequest backend (some cid) selectedServiceId
        hasOnBookingMade request serviceId).2 = none := by
  cases hins : backend.insertBooking
      { service_id := serviceId
        client_id := cid
        booking_date := request.booking_date
        special_requests := request.special_requests
        status := "pending" } <;>
    simp [handleBookingRequest, hins]

/-- C3: a booking fetch with role client and a known identifier executes
exactly one bookings query, whose shape filters by equality of client_id
with the identifier, carries no service-ownership filter, selects the
nested service title and provider name, orders by updated_at descending
and limits to 3 rows; no owned-services sub-query is issued. -/
theorem client_fetch_query_shape (backend : FetchBackend)
    (fmtDate fmtTime : String → String) (uid : String) :
    (fetchBookingRequests backend fmtDate fmtTime Role.client (some uid)).1.head? =
      some (FetchEffect.bookingsQuery
        { table := "bookings"
          selectNestedServiceAndUser := true
          orderField := "updated_at"
          orderAscending := false
          limitCount := 3
          clientIdEq := some uid
          serviceIdIn := none }) ∧
    ∀ u, FetchEffect.serviceIdsQuery u ∉
      (fetchBookingRequests backend fmtDate fmtTime Role.client (some uid)).1 := by
  exact ⟨runBookingsQuery_head backend fmtDate fmtTime
      { baseBookingsQuery with clientIdEq := some uid },
    runBookingsQuery_no_serviceIds backend fmtDate fmtTime
      { baseBookingsQuery with clientIdEq := some uid }⟩

/-- C4: a practitioner fetch whose owned-services sub-fetch returns zero
identifiers, or fails, stores the empty list and never executes the
bookings query. -/
theorem practitioner_no_services_empty (backend : FetchBackend)
    (fmtDate fmtTime : String → String) (uid : String)
    (h : backend.practitionerServices uid = .ok [] ∨
         backend.practitionerServices uid = .error ()) :
    (fetchBookingRequests backend fmtDate fmtTime Role.practitioner
        (some uid)).2 = [] ∧
    ∀ q, FetchEffect.bookingsQuery q ∉
      (fetchBookingRequests backend fmtDate fmtTime Role.practitioner
        (some uid)).1 := by
  rcases h with h | h <;> simp [fetchBookingRequests, h]

/-- C4 witness: the zero-owned-services case at a concrete backend. -/
theorem practitioner_no_services_empty_witness :
    (fetchBookingRequests demoBackend (fun s => s) (fun s => s)
        Role.practitioner (some "u1")).2 = [] ∧
    ∀ q, FetchEffect.bookingsQuery q ∉
      (fetchBookingRequests demoBackend (fun s => s) (fun s => s)
        Role.practitioner (some "u1")).1 :=
  practitioner_no_services_empty demoBackend (fun s => s) (fun s => s) "u1"
    (Or.inl rfl)

/-- C5: the formatter yields one view model per raw row in the same
order, and substitutes the fixed labels when the service relation is
missing, when the provider relation is missing, and the empty string
when the special-request text is absent. -/
theorem formatRequests_order_and_fallbacks (fmtDate fmtTime : String → String)
    (rows : List RawBooking) :
    (∀ i : Nat, (formatRequests fmtDate fmtTime rows)[i]? =
        (rows[i]?).map (formatBooking fmtDate fmtTime)) ∧
    ∀ r : RawBooking,
      (r.services = none →
        (formatBooking fmtDate fmtTime r).serviceTitle = "Unknown Service") ∧
      ((r.services.bind fun s => s.users) = none →
        (formatBooking fmtDate fmtTime r).practitionerName =
          "Unknown Practitioner") ∧
      (r.special_requests = none →
        (formatBooking fmtDate fmtTime r).special_requests = "") := by
  constructor
  · intro i
    simp [formatRequests]
  · intro r
    refine ⟨fun h => ?_, fun h => ?_, fun h => ?_⟩ <;> simp [formatBooking, h]

/-- C5 witness: the formatter at a concrete row with every relation
missing. -/
theorem formatRequests_order_and_fallbacks_witness :
    (formatRequests (fun s => s) (fun s => s) [sampleRawBooking])[0]? =
      some (formatBooking (fun s => s) (fun s => s) sampleRawBooking) ∧
    (formatBooking (fun s => s) (fun s => s) sampleRawBooking).serviceTitle =
      "Unknown Service" ∧
    (formatBooking (fun s => s) (fun s => s) sampleRawBooking).practitionerName =
      "Unknown Practitioner" ∧
    (formatBooking (fun s => s) (fun s => s) sampleRawBooking).special_requests =
      "" := by
  have h := formatRequests_order_and_fallbacks (fun s => s) (fun s => s)
    [sampleRawBooking]
  refine ⟨?_, (h.2 sampleRawBooking).1 rfl, (h.2 sampleRawBooking).2.1 rfl,
    (h.2 sampleRawBooking).2.2 rfl⟩
  simpa using h.1 0

/-- C6: after a successful status update, when exactly one entry of the
list carries the given identifier, that entry becomes the same record
with only its status field replaced, and every other position of the
list is unchanged. -/
theorem handleRespond_patches_single (backend : MutationBackend)
    (id status : String) (reqs : List BookingRequest) (i : Nat)
    (r0 : BookingRequest) (hi : reqs[i]? = some r0) (hmatch : r0.id = id)
    (hothers : ∀ j : Fin reqs.length, (j : Nat) ≠ i → (reqs.get j).id ≠ id)
    (hok : backend.updateStatus id status = Except.ok ()) :
    (handleRespond backend id status reqs).2.length = reqs.length ∧
    ((handleRespond backend id status reqs).2)[i]? =
      some { r0 with status := status } ∧
    ∀ j, j ≠ i → ((handleRespond backend id status reqs).2)[j]? = reqs[j]? := by
  have hout : (handleRespond backend id status reqs).2 =
      reqs.map fun req =>
        if req.id = id then { req with status := status } else req := by
    simp [handleRespond, hok]
  rw [hout]
  refine ⟨by simp, ?_, ?_⟩
  · rw [List.getElem?_map, hi, Option.map_some']
    rw [if_pos hmatch]
  · intro j hj
    rw [List.getElem?_map]
    cases hjq : reqs[j]? with
    | none => rfl
    | some r =>
        have hlt : j < reqs.length := by
          by_contra hge
          rw [List.getElem?_eq_none (Nat.le_of_not_lt hge)] at hjq
          exact Option.noConfusion hjq
        have hr : reqs.get ⟨j, hlt⟩ = r := by
          have hg := List.getElem?_eq_getElem hlt
          rw [hjq] at hg
          exact (Option.some.inj hg).symm
        have hne : r.id ≠ id := hr ▸ hothers ⟨j, hlt⟩ hj
        rw [Option.map_some', if_neg hne]

/-- C6 witness: a successful update of entry b1 in a two-entry list at a
concrete backend. -/
theorem handleRespond_patches_single_witness :
    (handleRespond okBackend "b1" "confirmed" [reqA, reqB]).2.length =
      ([reqA, reqB] : List BookingRequest).length ∧
    ((handleRespond okBackend "b1" "confirmed" [reqA, reqB]).2)[0]? =
      some { reqA with status := "confirmed" } ∧
    ∀ j, j ≠ 0 →
      ((handleRespond okBackend "b1" "confirmed" [reqA, reqB]).2)[j]? =
        ([reqA, reqB] : List BookingRequest)[j]? := by
  have hothers : ∀ j : Fin ([reqA, reqB] : List BookingRequest).length,
      (j : Nat) ≠ 0 → (([reqA, reqB] : List BookingRequest).get j).id ≠ "b1" := by
    decide
  exact handleRespond_patches_single okBackend "b1" "confirmed" [reqA, reqB] 0
    reqA rfl rfl hothers rfl

/-- C7: when the main bookings query fails, the fetch stores the empty
list (clearing any previously displayed bookings), logs the error, and
issues that query exactly once with no retry; stated for the client path
and for the practitioner path with a nonempty owned-service set. -/
theorem fetch_main_query_failure_clears (backend : FetchBackend)
    (fmtDate fmtTime : String → String) (uid : String) :
    (backend.runBookings { baseBookingsQuery with clientIdEq := some uid } =
        .error () →
      fetchBookingRequests backend fmtDate fmtTime Role.client (some uid) =
        ([.bookingsQuery { baseBookingsQuery with clientIdEq := some uid },
          .logError "Error fetching booking requests:"], [])) ∧
    (∀ serviceIds : List String, 0 < serviceIds.length →
      backend.practitionerServices uid = .ok serviceIds →
      backend.runBookings
          { baseBookingsQuery with serviceIdIn := some serviceIds } =
        .error () →
      fetchBookingRequests backend fmtDate fmtTime Role.practitioner
          (some uid) =
        ([.serviceIdsQuery uid,
          .bookingsQuery { baseBookingsQuery with serviceIdIn := some serviceIds },
          .logError "Error fetching booking requests:"], [])) := by
  constructor
  · intro h
    simp [fetchBookingRequests, runBookingsQuery, h]
  · intro serviceIds hlen hs h
    simp [fetchBookingRequests, runBookingsQuery, hs, hlen, h]

/-- C7 witness: both failure paths at a concrete backend whose main
query always fails. -/
theorem fetch_main_query_failure_clears_witness :
    (fetchBookingRequests failingMainQueryBackend (fun s => s) (fun s => s)
        Role.client (some "u1") =
      ([.bookingsQuery { baseBookingsQuery with clientIdEq := some "u1" },
        .logError "Error fetching booking requests:"], [])) ∧
    (fetchBookingRequests failingMainQueryBackend (fun s => s) (fun s => s)
        Role.practitioner (some "u1") =
      ([.serviceIdsQuery "u1",
        .bookingsQuery { baseBookingsQuery with serviceIdIn := some ["s1"] },
        .logError "Error fetching booking requests:"], [])) :=
  ⟨(fetch_main_query_failure_clears failingMainQueryBackend (fun s => s)
      (fun s => s) "u1").1 rfl,
   (fetch_main_query_failure_clears failingMainQueryBackend (fun s => s)
      (fun s => s) "u1").2 ["s1"] (by decide) rfl rfl⟩

/-- C8: the cancel handler and the update-status handler specialised to
the status cancelled issue the same single-row update, store the same
patched list on success and the same unchanged list on failure; their
effect traces agree up to the wording of the error log. -/
theorem handleCancel_matches_handleRespond (backend : MutationBackend)
    (id : String) (reqs : List BookingRequest) :
    (handleCancel backend id reqs).2 =
      (handleRespond backend id "cancelled" reqs).2 ∧
    (handleCancel backend id reqs).1.map eraseLogText =
      (handleRespond backend id "cancelled" reqs).1.map eraseLogText := by
  unfold handleCancel handleRespond
  cases h : backend.updateStatus id "cancelled" <;> simp [eraseLogText, h]

/-- C10: when no entry of the list carries the given identifier, the
local patch of a successful status update and the local patch of a
successful cancel both leave the list entirely unchanged. -/
theorem patch_without_match_id (backend : MutationBackend)
    (id status : String) (reqs : List BookingRequest)
    (h : ∀ req ∈ reqs, req.id ≠ id)
    (hok1 : backend.updateStatus id status = Except.ok ())
    (hok2 : backend.updateStatus id "cancelled" = Except.ok ()) :
    (handleRespond backend id status reqs).2 = reqs ∧
    (handleCancel backend id reqs).2 = reqs := by
  constructor
  · have hout : (handleRespond backend id status reqs).2 =
        reqs.map fun req =>
          if req.id = id then { req with status := status } else req := by
      simp [handleRespond, hok1]
    rw [hout]
    exact map_fixes_of_forall _ _ fun x hx => if_neg (h x hx)
  · have hout : (handleCancel backend id reqs).2 =
        reqs.map fun req =>
          if req.id = id then { req with status := "cancelled" } else req := by
      simp [handleCancel, hok2]
    rw [hout]
    exact map_fixes_of_forall _ _ fun x hx => if_neg (h x hx)

/-- C10 witness: a one-entry list whose identifier differs from the
updated one, at a concrete all-ok backend. -/
theorem patch_without_match_id_witness :
    (handleRespond okBackend "zzz" "confirmed" [reqA]).2 = [reqA] ∧
    (handleCancel okBackend "zzz" [reqA]).2 = [reqA] :=
  patch_without_match_id okBackend "zzz" "confirmed" [reqA] (by decide) rfl rfl

/-- C1: evidence of the stale-closure divergence.  After the session
reader resolves user u1 the most recently known identifier is u1, and a
fetch with u1 against a backend holding one booking row yields one
formatted entry; yet the realtime callback, closing over the mount-time
clientId binding, stores the empty list on every change event. -/
theorem changeEvent_stale_client_id :
    (fetchCurrentUser demoBackend (fun s => s) (fun s => s) Role.client
        (.ok (some "u1")) initialState).clientId = some "u1" ∧
    (onBookingsChangeEvent demoBackend (fun s => s) (fun s => s)
        Role.client).2 = [] ∧
    (fetchBookingRequests demoBackend (fun s => s) (fun s => s) Role.client
        (some "u1")).2 =
      [{ id := "b1"
         booking_date := "2024-06-01T10:00"
         time := "2024-06-01T10:00"
         special_requests := "first visit"
         status := "pending"
         serviceTitle := "Massage"
         practitionerName := "Alice" }] :=
  ⟨rfl, rfl, rfl⟩

end ProviderList
